import Mathlib

/-!
Verification development for the GHBC gate-management app
(check-in ledger, guest-quota validation, alert log, sync).

The embedding models the TypeScript modules `src/utils/Utils.ts`,
`src/utils/GuestValidationService.ts`, `src/utils/CheckInStorageService.ts`,
the alert storage service (`createAlert` etc.), the member storage service,
and the download handler of `src/screens/HomeScreen.tsx`.

Modelling conventions:
* `AsyncStorage` state is passed explicitly (the check-in list, the alert
  list, and for the download path a `Store` record).
* "now" (`new Date()`) is an explicit `Date` (calendar date) parameter,
  plus a time-of-day string where the code uses `toTimeString`.
* Date strings parsed by `new Date(...)` are modelled as structured
  calendar dates; `toISOString().split('T')[0]` is `isoDate`.
* Only the record fields consulted by the verified operations are carried
  (`Member`'s contact/vehicle fields, `GuestVisit.id`/`notes`, and the API
  metadata are never read by these code paths).
-/

/-- A calendar date, as extracted from a JS `Date` (month is 1-based,
matching the code's `getMonth() + 1`). -/
structure Date where
  year : Nat
  month : Nat
  day : Nat
deriving Repr, DecidableEq

/-- JS `String.prototype.toLowerCase()` (ASCII-relevant part), modelled
transparently so concrete inputs evaluate in the kernel. -/
def jsToLower (s : String) : String := ⟨s.data.map Char.toLower⟩

/-- JS `String.prototype.trim()`: strip whitespace from both ends. -/
def jsTrim (s : String) : String :=
  ⟨((s.data.dropWhile (fun c => c.isWhitespace)).reverse.dropWhile
      (fun c => c.isWhitespace)).reverse⟩

/-- Two-digit zero padding, as in ISO date components. -/
def pad2 (n : Nat) : String :=
  if n < 10 then "0" ++ toString n else toString n

/-- Model of `now.toISOString().split('T')[0]` — the `YYYY-MM-DD` date string. -/
def isoDate (d : Date) : String :=
  toString d.year ++ "-" ++ pad2 d.month ++ "-" ++ pad2 d.day

/-- Function `getCurrentSeason` from `src/utils/Utils.ts`, with "now" explicit:
`(month >= 6 && month <= 9) ? S{year} : W{year}` (braces in the original
are template interpolation). -/
def getCurrentSeason (now : Date) : String :=
  if 6 ≤ now.month ∧ now.month ≤ 9 then "S" ++ toString now.year
  else "W" ++ toString now.year

/-- Function `getSeasonFromDate` from `src/utils/Utils.ts`: same month rule applied
to an arbitrary date. -/
def getSeasonFromDate (d : Date) : String :=
  if 6 ≤ d.month ∧ d.month ≤ 9 then "S" ++ toString d.year
  else "W" ++ toString d.year

/-- A live guest entry within a `CheckIn` (`{ name; notes? }`). -/
structure Guest where
  name : String
  notes : Option String := none
deriving Repr, DecidableEq

/-- A historical guest visit of a member (fields consulted by the
validation code: `guest_name`, `visit_date`). -/
structure GuestVisit where
  guest_name : String
  visit_date : Date
deriving Repr, DecidableEq

/-- A member of the directory (fields consulted by the verified
operations: `profile_id`, `name` — nullable in TS — and `guest_visits`). -/
structure Member where
  profile_id : Nat
  name : Option String := none
  guest_visits : List GuestVisit := []
deriving Repr, DecidableEq

/-- One check-in record of today's ledger (`CheckIn` in `types.ts`). -/
structure CheckIn where
  profile_id : Nat
  check_in_date : String
  check_in_time : String
  guests : List Guest
  notes : Option String := none
deriving Repr, DecidableEq

/-- A stored alert (`AlertUpload` in `types.ts`; `createAlert` always
fills every field, defaulting the optional ones). -/
structure AlertUpload where
  profile_id : Nat
  guest_name : String
  visit_date : String
  season : String
  type : String
  alert_message : String
deriving Repr, DecidableEq

/-- The parameter object accepted by `createAlert`. -/
structure AlertParams where
  profile_id : Nat
  guest_name : Option String := none
  visit_date : Option String := none
  season : Option String := none
  type : String
  alert_message : String
deriving Repr, DecidableEq

/-- Function `createAlert` from the alert storage service: reads today's alerts,
pushes a new alert whose `visit_date` defaults to today's date, whose
`guest_name` defaults to `''`, and whose `season` is always
`getCurrentSeason()`, then writes the list back. -/
def createAlert (params : AlertParams) (now : Date)
    (existingAlerts : List AlertUpload) : List AlertUpload :=
  let visitDate := params.visit_date.getD (isoDate now)
  let season := getCurrentSeason now
  existingAlerts ++ [{ profile_id := params.profile_id,
                       guest_name := params.guest_name.getD "",
                       visit_date := visitDate,
                       season := season,
                       type := params.type,
                       alert_message := params.alert_message }]

/-- Function `clearTodaysAlerts` from the alert storage service. -/
def clearTodaysAlerts (_alerts : List AlertUpload) : List AlertUpload := []

/-- Composition of `getAllMembers` / `getMemberById` from the member storage
service: look a member up by `profile_id` in the stored directory. -/
def getMemberById (members : List Member) (profileId : Nat) : Option Member :=
  members.find? (fun m => m.profile_id == profileId)

/-- Model of `name || 'Member'` — the JS `||` falls through on `null` and on the
empty string. -/
def nameOrDefault (name : Option String) : String :=
  match name with
  | some n => if n == "" then "Member" else n
  | none => "Member"

/-- Function `getMemberName` from the member storage service:
`member?.name || 'Member'`. -/
def getMemberName (members : List Member) (profileId : Nat) : String :=
  match getMemberById members profileId with
  | some m => nameOrDefault m.name
  | none => "Member"

/-- Function `getGuestVisitCount` from `src/utils/GuestValidationService.ts`:
season-scoped, case-insensitive visit counter for one member, combining
the member's historical `guest_visits` with today's check-ins for the
same `profile_id`; an unknown member yields 0. The two `forEach` counter
loops are folds. -/
def getGuestVisitCount (members : List Member) (now : Date)
    (guestName : String) (todaysCheckIns : List CheckIn)
    (profileId : Nat) : Nat :=
  let currentSeason := getCurrentSeason now
  match members.find? (fun m => m.profile_id == profileId) with
  | none => 0
  | some member =>
    let count := member.guest_visits.foldl
      (fun acc visit =>
        if getSeasonFromDate visit.visit_date == currentSeason &&
            jsToLower visit.guest_name == jsToLower guestName
        then acc + 1 else acc) 0
    let memberCheckins :=
      todaysCheckIns.filter (fun checkIn => checkIn.profile_id == profileId)
    memberCheckins.foldl
      (fun acc checkIn =>
        checkIn.guests.foldl
          (fun a guest =>
            if jsToLower guest.name == jsToLower guestName then a + 1 else a)
          acc)
      count

/-- Function `validateGuestVisitLimit` from `src/utils/GuestValidationService.ts`:
returns `false` for a blank trimmed name or a lowercase name already in
`existingGuestNames`; otherwise flags (and records a `GuestLimit` alert)
exactly when the visit count is `> 3`. The alert write is threaded as the
second component. -/
def validateGuestVisitLimit (members : List Member) (now : Date)
    (guest : Guest) (profileId : Nat) (todaysCheckIns : List CheckIn)
    (existingGuestNames : List String) (alerts : List AlertUpload) :
    Bool × List AlertUpload :=
  if jsTrim guest.name == "" then (false, alerts)
  else if existingGuestNames.contains (jsToLower guest.name) then (false, alerts)
  else
    let visitCount :=
      getGuestVisitCount members now guest.name todaysCheckIns profileId
    if visitCount > 3 then
      (true,
       createAlert
         { profile_id := profileId,
           guest_name := some guest.name,
           type := "GuestLimit",
           alert_message := "This is visit #" ++ toString (visitCount + 1) ++
             " (exceeds 3-visit limit)" }
         now alerts)
    else (false, alerts)

/-- Result record of `validateGuestCount`. -/
structure GuestCountValidation where
  valid : Bool
  message : Option String := none
deriving Repr, DecidableEq

/-- Function `validateGuestCount` from `src/utils/GuestValidationService.ts`:
hard 5-guest per-member per-day cap. -/
def validateGuestCount (currentCount newCount : Nat) : GuestCountValidation :=
  if currentCount + newCount > 5 then
    { valid := false,
      message := some ("Cannot add " ++ toString newCount ++
        " more guests. Maximum 5 guests allowed per member per day. This member already has " ++
        toString currentCount ++ " guest(s).") }
  else { valid := true }

/-- The `for (const guest of validGuests)` loop of `processGuests`:
collects flagged guests in order and threads the alert log. -/
def processGuestsLoop (members : List Member) (now : Date) (profileId : Nat)
    (todaysCheckIns : List CheckIn) (existingGuestNames : List String) :
    List Guest → List Guest → List AlertUpload →
    List Guest × List AlertUpload
  | [], overLimit, alerts => (overLimit, alerts)
  | guest :: rest, overLimit, alerts =>
    let r := validateGuestVisitLimit members now guest profileId
      todaysCheckIns existingGuestNames alerts
    processGuestsLoop members now profileId todaysCheckIns existingGuestNames
      rest (if r.1 then overLimit ++ [guest] else overLimit) r.2

/-- Function `processGuests` from `src/utils/GuestValidationService.ts`: drops
blank-named guests, then runs the over-limit check on each survivor. -/
def processGuests (members : List Member) (now : Date) (guests : List Guest)
    (profileId : Nat) (todaysCheckIns : List CheckIn)
    (existingGuestNames : List String) (alerts : List AlertUpload) :
    (List Guest × List Guest) × List AlertUpload :=
  let validGuests := guests.filter (fun guest => jsTrim guest.name != "")
  let r := processGuestsLoop members now profileId todaysCheckIns
    existingGuestNames validGuests [] alerts
  ((validGuests, r.1), r.2)

/-- The `{success, message}` result returned by the check-in service. -/
structure CheckInResult where
  success : Bool
  message : String
deriving Repr, DecidableEq

/-- The mutable day state: today's check-ins and today's alerts, the two
AsyncStorage lists touched by the check-in service. -/
structure LedgerState where
  checkIns : List CheckIn
  alerts : List AlertUpload
deriving Repr, DecidableEq

/-- In-place update of the first list element satisfying `p`, as the code
does with `checkIns[existingCheckInIndex] = ...` after `findIndex`. -/
def updateFirst (p : α → Bool) (f : α → α) : List α → List α
  | [] => []
  | x :: xs => if p x then f x :: xs else x :: updateFirst p f xs

/-- Function `handleGuestCheckIn` from `src/utils/CheckInStorageService.ts`: the
core of both "check in" and "add guests to an existing check-in".
Rejections (already checked in / not checked in / over the 5-guest cap)
return `success := false` and leave the state untouched; otherwise guests
are processed (possibly recording alerts) and the ledger is written once. -/
def handleGuestCheckIn (members : List Member) (now : Date) (nowTime : String)
    (profileId : Nat) (memberName : String) (guests : List Guest)
    (isAddingToExisting : Bool) (st : LedgerState) :
    CheckInResult × LedgerState :=
  let checkIns := st.checkIns
  let todaysCheckIns := checkIns
  let existingCheckIn := checkIns.find? (fun c => c.profile_id == profileId)
  match existingCheckIn, isAddingToExisting with
  | some _, false =>
    ({ success := false,
       message := memberName ++ " is already checked in today." }, st)
  | none, true =>
    ({ success := false, message := "Member is not checked in today" }, st)
  | e, isAdding =>
    let currentGuestCount := match e with
      | some c => c.guests.length
      | none => 0
    let validGuests := guests.filter (fun g => jsTrim g.name != "")
    let guestCountValidation :=
      validateGuestCount currentGuestCount validGuests.length
    if guestCountValidation.valid = false then
      ({ success := false,
         message := guestCountValidation.message.getD "Too many guests" }, st)
    else
      let existingGuestNames := match e with
        | some c => c.guests.map (fun g => jsToLower g.name)
        | none => []
      let pr := processGuests members now guests profileId todaysCheckIns
        existingGuestNames st.alerts
      let processedGuests := pr.1.1
      if isAdding = false then
        let newCheckIn : CheckIn :=
          { profile_id := profileId,
            check_in_date := isoDate now,
            check_in_time := nowTime,
            guests := processedGuests }
        let guestText :=
          if processedGuests.length > 0 then
            " with " ++ toString processedGuests.length ++ " guest" ++
              (if processedGuests.length > 1 then "s" else "")
          else ""
        ({ success := true,
           message := memberName ++ " has been checked in" ++ guestText ++ "!" },
         { checkIns := checkIns ++ [newCheckIn], alerts := pr.2 })
      else
        ({ success := true,
           message := "Added " ++ toString processedGuests.length ++
             " guest(s) to " ++ memberName ++ "\x27s check-in." },
         { checkIns := updateFirst (fun c => c.profile_id == profileId)
             (fun c => { c with guests := c.guests ++ processedGuests })
             checkIns,
           alerts := pr.2 })

/-- Function `addCheckIn`: first check-in of a member for the day. -/
def addCheckIn (members : List Member) (now : Date) (nowTime : String)
    (member : Member) (guests : List Guest) (st : LedgerState) :
    CheckInResult × LedgerState :=
  handleGuestCheckIn members now nowTime member.profile_id
    (nameOrDefault member.name) guests false st

/-- Function `addGuestsToExistingCheckIn`: add guests to an existing record. -/
def addGuestsToExistingCheckIn (members : List Member) (now : Date)
    (nowTime : String) (profileId : Nat) (newGuests : List Guest)
    (st : LedgerState) : CheckInResult × LedgerState :=
  handleGuestCheckIn members now nowTime profileId
    (getMemberName members profileId) newGuests true st

/-- Function `clearTodaysCheckins` from `src/utils/CheckInStorageService.ts`. -/
def clearTodaysCheckins (_checkIns : List CheckIn) : List CheckIn := []

/-- API metadata block (`ApiMetadata` in `types.ts`). -/
structure ApiMetadata where
  timestamp : String
  date : String
  member_count : Nat
  total_guest_visits : Nat
deriving Repr, DecidableEq

/-- Record `MemberData` in `types.ts`: the directory snapshot as downloaded. -/
structure MemberData where
  metadata : ApiMetadata
  members : List Member
deriving Repr, DecidableEq

/-- Record `ApiResponse` in `types.ts`. -/
structure ApiResponse where
  status : Nat
  message : String
  data : MemberData
  api_version : String
  timestamp : String
deriving Repr, DecidableEq

/-- The full persisted key-value state: member data, last-download
timestamp, today's check-ins, today's alerts. -/
structure Store where
  memberData : Option MemberData := none
  lastDownloadDate : Option String := none
  checkIns : List CheckIn := []
  alerts : List AlertUpload := []
deriving Repr, DecidableEq

/-- Function `storeApiData` from the member storage service: store the snapshot
wholesale and stamp the last-download instant. -/
def storeApiData (apiResponse : ApiResponse) (nowInstant : String)
    (s : Store) : Store :=
  { s with memberData := some apiResponse.data,
           lastDownloadDate := some nowInstant }

/-- The `status === 200` branch of `handleDownloadData` in
`src/screens/HomeScreen.tsx`: `storeApiData`, re-stamp the last-download
key, and reset today's check-ins to `[]`. -/
def handleDownloadDataSuccess (apiResponse : ApiResponse)
    (nowInstant : String) (s : Store) : Store :=
  let s1 := storeApiData apiResponse nowInstant s
  let s2 := { s1 with lastDownloadDate := some nowInstant }
  { s2 with checkIns := [] }

/-- The `status === 200` branch of `handleUploadData` in
`src/screens/HomeScreen.tsx`: clear check-ins and alerts. -/
def handleUploadDataSuccess (s : Store) : Store :=
  { s with checkIns := clearTodaysCheckins s.checkIns,
           alerts := clearTodaysAlerts s.alerts }

/-- The ambient inputs a single service call reads besides the ledger:
the stored directory and the wall clock. -/
structure Env where
  members : List Member
  now : Date
  nowTime : String

/-- One user-level ledger operation. -/
inductive LedgerOp where
  | checkIn (member : Member) (guests : List Guest)
  | addGuests (profileId : Nat) (guests : List Guest)

/-- State transition of one ledger operation. -/
def applyOp (e : Env) (op : LedgerOp) (st : LedgerState) : LedgerState :=
  match op with
  | .checkIn m gs => (addCheckIn e.members e.now e.nowTime m gs st).2
  | .addGuests pid gs =>
    (addGuestsToExistingCheckIn e.members e.now e.nowTime pid gs st).2

/-- Run a sequence of ledger operations, each under its own environment. -/
def runOps : List (Env × LedgerOp) → LedgerState → LedgerState
  | [], st => st
  | (e, op) :: rest, st => runOps rest (applyOp e op st)

/-- At most one check-in per `profile_id`: the profile ids in the ledger
are pairwise distinct. -/
def uniqueProfiles (l : List CheckIn) : Prop :=
  (l.map (fun c => c.profile_id)).Pairwise (fun a b => a ≠ b)

/-! ### General list lemmas used by several proofs -/

/-- A `forEach` counter loop counts exactly the matching elements. -/
theorem foldl_count_eq {α : Type} (p : α → Bool) (l : List α) (n : Nat) :
    l.foldl (fun acc x => if p x then acc + 1 else acc) n = n + l.countP p := by
  induction l generalizing n with
  | nil => simp
  | cons x xs ih =>
    cases h : p x
    all_goals simp [List.countP_cons, h, ih]
    all_goals omega

/-- A loop that adds a contribution per element computes the sum. -/
theorem foldl_add_eq {α : Type} (g : α → Nat) (l : List α) (n : Nat) :
    l.foldl (fun acc x => acc + g x) n = n + (l.map g).sum := by
  induction l generalizing n with
  | nil => simp
  | cons x xs ih =>
    rw [List.foldl_cons, ih, List.map_cons, List.sum_cons]
    omega

/-- The nested check-in/guest counter loop counts matching guests over
all listed check-ins. -/
theorem foldl_nested_count_eq (q : Guest → Bool) (l : List CheckIn) (n : Nat) :
    l.foldl (fun acc checkIn => checkIn.guests.foldl
        (fun a g => if q g then a + 1 else a) acc) n =
      n + (l.map (fun checkIn => checkIn.guests.countP q)).sum := by
  have hfun : (fun (acc : Nat) (checkIn : CheckIn) =>
      checkIn.guests.foldl (fun a g => if q g then a + 1 else a) acc) =
      fun acc checkIn => acc + checkIn.guests.countP q := by
    funext acc checkIn
    exact foldl_count_eq q checkIn.guests acc
  rw [hfun, foldl_add_eq]

/-- Updating one element in place preserves any projection the update
function preserves. -/
theorem updateFirst_map {α β : Type} (p : α → Bool) (f : α → α) (proj : α → β)
    (hf : ∀ x, proj (f x) = proj x) (l : List α) :
    (updateFirst p f l).map proj = l.map proj := by
  induction l with
  | nil => rfl
  | cons x xs ih => simp only [updateFirst]; split <;> simp [hf, ih]

/-- Behaviour of `find?` after an in-place update of the first match. -/
theorem updateFirst_find? {α : Type} (p : α → Bool) (f : α → α)
    (hp : ∀ x, p (f x) = p x) (l : List α) :
    (updateFirst p f l).find? p = (l.find? p).map f := by
  induction l with
  | nil => rfl
  | cons x xs ih =>
    simp only [updateFirst]
    cases h : p x with
    | true =>
      rw [if_pos rfl, List.find?_cons_of_pos _ (by rw [hp]; exact h),
          List.find?_cons_of_pos _ h]
      rfl
    | false =>
      rw [if_neg (by decide), List.find?_cons_of_neg _ (by simp [h]),
          List.find?_cons_of_neg _ (by simp [h]), ih]

/-- Behaviour of `find?` over an append whose left part has no match. -/
theorem find?_append_of_none {α : Type} {p : α → Bool} {l1 : List α}
    (h : l1.find? p = none) (l2 : List α) :
    (l1 ++ l2).find? p = l2.find? p := by
  induction l1 with
  | nil => rfl
  | cons x xs ih =>
    have hx : ¬ p x = true := by
      intro hx
      rw [List.find?_cons_of_pos _ hx] at h
      cases h
    rw [List.cons_append, List.find?_cons_of_neg _ hx]
    exact ih (by rwa [List.find?_cons_of_neg _ hx] at h)

/-! ### Structure of `handleGuestCheckIn` -/

/-- Any outcome of `handleGuestCheckIn` either keeps the ledger's profile
ids unchanged, or appends exactly the one new id of a member not yet in
the ledger. -/
theorem handleGuestCheckIn_profiles (members : List Member) (now : Date)
    (nowTime : String) (profileId : Nat) (memberName : String)
    (guests : List Guest) (isAdding : Bool) (st : LedgerState) :
    (handleGuestCheckIn members now nowTime profileId memberName guests
        isAdding st).2.checkIns.map (fun c => c.profile_id) =
      st.checkIns.map (fun c => c.profile_id) ∨
    ((handleGuestCheckIn members now nowTime profileId memberName guests
        isAdding st).2.checkIns.map (fun c => c.profile_id) =
      st.checkIns.map (fun c => c.profile_id) ++ [profileId] ∧
     ∀ c ∈ st.checkIns, c.profile_id ≠ profileId) := by
  rcases hfind : st.checkIns.find? (fun c => c.profile_id == profileId)
    with _ | c <;> cases isAdding
  · -- no record, fresh check-in: cap failure or append
    simp only [handleGuestCheckIn, hfind]
    split
    · exact Or.inl rfl
    · refine Or.inr ⟨by simp, fun c hc => ?_⟩
      have := List.find?_eq_none.mp hfind c hc
      simpa using this
  · -- no record, adding: rejected
    simp [handleGuestCheckIn, hfind]
  · -- record exists, fresh check-in: rejected
    simp [handleGuestCheckIn, hfind]
  · -- record exists, adding: cap failure or in-place update
    simp only [handleGuestCheckIn, hfind]
    split
    · exact Or.inl rfl
    · rw [if_neg (by decide)]
      refine Or.inl ?_
      apply updateFirst_map
      intro x
      rfl

/-- One ledger operation preserves profile-id uniqueness. -/
theorem applyOp_preserves_unique (e : Env) (op : LedgerOp) (st : LedgerState)
    (h : uniqueProfiles st.checkIns) :
    uniqueProfiles (applyOp e op st).checkIns := by
  have key : ∀ (pid : Nat) (name : String) (gs : List Guest) (b : Bool),
      uniqueProfiles
        (handleGuestCheckIn e.members e.now e.nowTime pid name gs b st).2.checkIns := by
    intro pid name gs b
    rcases handleGuestCheckIn_profiles e.members e.now e.nowTime pid name gs b st
      with heq | ⟨heq, hnotin⟩
    · unfold uniqueProfiles at h ⊢
      rw [heq]; exact h
    · unfold uniqueProfiles at h ⊢
      rw [heq, List.pairwise_append]
      refine ⟨h, by simp, ?_⟩
      intro x hx y hy
      simp only [List.mem_map] at hx
      obtain ⟨c, hc, rfl⟩ := hx
      simp only [List.mem_singleton] at hy
      subst hy
      exact hnotin c hc
  cases op with
  | checkIn m gs => exact key m.profile_id (nameOrDefault m.name) gs false
  | addGuests pid gs => exact key pid (getMemberName e.members pid) gs true

/-- Running any operation sequence preserves profile-id uniqueness. -/
theorem runOps_preserves_unique (steps : List (Env × LedgerOp)) :
    ∀ st : LedgerState, uniqueProfiles st.checkIns →
      uniqueProfiles (runOps steps st).checkIns := by
  induction steps with
  | nil => intro st h; exact h
  | cons s rest ih =>
    intro st h
    obtain ⟨e, op⟩ := s
    exact ih _ (applyOp_preserves_unique e op st h)

/-- C1: starting from an empty ledger, every sequence of check-in and
add-guests operations keeps at most one CheckIn per profile id; and a
check-in attempt for a member who already has a CheckIn fails with the
"already checked in" message naming the member and leaves the state
unchanged. -/
theorem checkin_uniqueness :
    (∀ steps : List (Env × LedgerOp),
      uniqueProfiles (runOps steps { checkIns := [], alerts := [] }).checkIns) ∧
    (∀ (members : List Member) (now : Date) (nowTime : String) (m : Member)
        (guests : List Guest) (st : LedgerState) (c : CheckIn),
      st.checkIns.find? (fun x => x.profile_id == m.profile_id) = some c →
      addCheckIn members now nowTime m guests st =
        ({ success := false,
           message := nameOrDefault m.name ++ " is already checked in today." },
         st)) := by
  constructor
  · intro steps
    exact runOps_preserves_unique steps _ (by simp [uniqueProfiles])
  · intro members now nowTime m guests st c hfind
    simp [addCheckIn, handleGuestCheckIn, hfind]

/-- Witness for `checkin_uniqueness`: a concrete duplicate check-in is
rejected and the ledger kept. -/
theorem checkin_uniqueness_witness :
    addCheckIn [] ⟨2025, 7, 1⟩ "10:00:00"
        { profile_id := 1, name := some "Alice" } []
        { checkIns := [{ profile_id := 1, check_in_date := "2025-07-01",
                         check_in_time := "09:00:00", guests := [] }],
          alerts := [] } =
      ({ success := false,
         message := nameOrDefault (some "Alice") ++
           " is already checked in today." },
       { checkIns := [{ profile_id := 1, check_in_date := "2025-07-01",
                        check_in_time := "09:00:00", guests := [] }],
         alerts := [] }) :=
  checkin_uniqueness.2 [] ⟨2025, 7, 1⟩ "10:00:00"
    { profile_id := 1, name := some "Alice" } []
    { checkIns := [{ profile_id := 1, check_in_date := "2025-07-01",
                     check_in_time := "09:00:00", guests := [] }],
      alerts := [] }
    { profile_id := 1, check_in_date := "2025-07-01",
      check_in_time := "09:00:00", guests := [] }
    (by decide)

/-- C6: getSeasonFromDate tags a date with `S` followed by the year when
the month is in the inclusive warm range 6–9, and `W` followed by the same
year otherwise; in particular June 1 and September 30 are summer, and
May 31 and October 1 are winter with the same year. -/
theorem season_boundary (y d m : Nat) :
    (6 ≤ m ∧ m ≤ 9 → getSeasonFromDate ⟨y, m, d⟩ = "S" ++ toString y) ∧
    (m < 6 ∨ 9 < m → getSeasonFromDate ⟨y, m, d⟩ = "W" ++ toString y) ∧
    getSeasonFromDate ⟨y, 6, 1⟩ = "S" ++ toString y ∧
    getSeasonFromDate ⟨y, 9, 30⟩ = "S" ++ toString y ∧
    getSeasonFromDate ⟨y, 5, 31⟩ = "W" ++ toString y ∧
    getSeasonFromDate ⟨y, 10, 1⟩ = "W" ++ toString y := by
  refine ⟨fun h => ?_, fun h => ?_, ?_, ?_, ?_, ?_⟩ <;>
    simp only [getSeasonFromDate] <;>
    first
      | rw [if_pos (by omega)]
      | rw [if_neg (by omega)]

/-- Witness for `season_boundary` at concrete dates. -/
theorem season_boundary_witness :
    getSeasonFromDate ⟨2025, 7, 15⟩ = "S" ++ toString 2025 ∧
    getSeasonFromDate ⟨2025, 11, 2⟩ = "W" ++ toString 2025 :=
  ⟨(season_boundary 2025 15 7).1 (by omega),
   (season_boundary 2025 2 11).2.1 (by omega)⟩

/-- C10: createAlert appends exactly one alert, whose `season` is the
season of the creation time regardless of the caller-supplied season
parameter, whose `visit_date` defaults to the current date when omitted,
and whose `guest_name` defaults to the empty string when omitted. -/
theorem createAlert_spec (params : AlertParams) (now : Date)
    (alerts : List AlertUpload) :
    ∃ a : AlertUpload,
      createAlert params now alerts = alerts ++ [a] ∧
      a.season = getCurrentSeason now ∧
      (∀ s : Option String,
        createAlert { params with season := s } now alerts =
          createAlert params now alerts) ∧
      (params.visit_date = none → a.visit_date = isoDate now) ∧
      (params.guest_name = none → a.guest_name = "") ∧
      a.profile_id = params.profile_id ∧
      a.type = params.type ∧
      a.alert_message = params.alert_message := by
  refine ⟨_, rfl, rfl, fun s => rfl, fun h => ?_, fun h => ?_, rfl, rfl, rfl⟩ <;>
    simp [h]

/-- Witness for `createAlert_spec` at a concrete call. -/
theorem createAlert_spec_witness :
    ∃ a : AlertUpload,
      createAlert { profile_id := 7, type := "ManualGateAlert",
                    alert_message := "note", season := some "W1999" }
        ⟨2025, 7, 4⟩ [] = [] ++ [a] ∧
      a.season = getCurrentSeason ⟨2025, 7, 4⟩ ∧
      (∀ s : Option String,
        createAlert { profile_id := 7, type := "ManualGateAlert",
                      alert_message := "note", season := s }
          ⟨2025, 7, 4⟩ [] =
        createAlert { profile_id := 7, type := "ManualGateAlert",
                      alert_message := "note", season := some "W1999" }
          ⟨2025, 7, 4⟩ []) ∧
      ((some "W1999" : Option String).isSome = true) := by
  obtain ⟨a, h1, h2, h3, -, -, -, -, -⟩ :=
    createAlert_spec
      { profile_id := 7, type := "ManualGateAlert",
        alert_message := "note", season := some "W1999" } ⟨2025, 7, 4⟩ []
  exact ⟨a, h1, h2, fun s => (h3 s).trans rfl, rfl⟩

/-- C4: whenever `handleGuestCheckIn` reports failure, the ledger and the
alert log are exactly as they were before the call — rejections are
structured results, not mutations (covers already-checked-in,
not-checked-in, and guest-cap rejections, in particular the cap rejection
of an add-guests attempt). -/
theorem rejection_no_mutation (members : List Member) (now : Date)
    (nowTime : String) (profileId : Nat) (memberName : String)
    (guests : List Guest) (isAdding : Bool) (st : LedgerState) :
    (handleGuestCheckIn members now nowTime profileId memberName guests
        isAdding st).1.success = false →
    (handleGuestCheckIn members now nowTime profileId memberName guests
        isAdding st).2 = st := by
  rcases hfind : st.checkIns.find? (fun c => c.profile_id == profileId)
    with _ | c <;> cases isAdding <;> simp only [handleGuestCheckIn, hfind]
  · -- no record, fresh check-in
    split
    · intro _; rfl
    · simp
  · -- no record, adding guests: rejected without mutation
    intro _; trivial
  · -- record exists, fresh check-in: rejected without mutation
    intro _; trivial
  · -- record exists, adding guests
    split
    · intro _; rfl
    · simp

/-- Witness for `rejection_no_mutation`: an add-guests call for a member
with no check-in today fails and mutates nothing. -/
theorem rejection_no_mutation_witness :
    (handleGuestCheckIn [] ⟨2025, 7, 1⟩ "10:00:00" 1 "Alice"
        [{ name := "Bob" }] true { checkIns := [], alerts := [] }).2 =
      { checkIns := [], alerts := [] } :=
  rejection_no_mutation [] ⟨2025, 7, 1⟩ "10:00:00" 1 "Alice"
    [{ name := "Bob" }] true { checkIns := [], alerts := [] } (by decide)

/-- The flag computed by `validateGuestVisitLimit` does not depend on the
alert log it threads. -/
theorem validateGuestVisitLimit_fst (members : List Member) (now : Date)
    (g : Guest) (pid : Nat) (checkIns : List CheckIn)
    (existing : List String) (alerts alerts' : List AlertUpload) :
    (validateGuestVisitLimit members now g pid checkIns existing alerts).1 =
    (validateGuestVisitLimit members now g pid checkIns existing alerts').1 := by
  by_cases h1 : (jsTrim g.name == "") = true
  · simp [validateGuestVisitLimit, h1]
  · by_cases h2 : jsToLower g.name ∈ existing
    · simp [validateGuestVisitLimit, h1, h2]
    · by_cases h3 : getGuestVisitCount members now g.name checkIns pid > 3
      · simp [validateGuestVisitLimit, h1, h2, h3]
      · simp [validateGuestVisitLimit, h1, h2, h3]

/-- The guest-processing loop returns the accumulated flagged guests plus
exactly the incoming guests the over-limit check flags, in order. -/
theorem processGuestsLoop_over (members : List Member) (now : Date)
    (pid : Nat) (checkIns : List CheckIn) (existing : List String) :
    ∀ (gs acc : List Guest) (alerts : List AlertUpload),
      (processGuestsLoop members now pid checkIns existing gs acc alerts).1 =
        acc ++ gs.filter (fun g =>
          (validateGuestVisitLimit members now g pid checkIns existing []).1) := by
  intro gs
  induction gs with
  | nil => intro acc alerts; simp [processGuestsLoop]
  | cons g rest ih =>
    intro acc alerts
    simp only [processGuestsLoop, List.filter_cons]
    have hfst := validateGuestVisitLimit_fst members now g pid checkIns
      existing alerts []
    cases hov : (validateGuestVisitLimit members now g pid checkIns
        existing alerts).1 with
    | true =>
      rw [ih]
      have hz : (validateGuestVisitLimit members now g pid checkIns
          existing []).1 = true := by rw [← hfst, hov]
      simp [hz]
    | false =>
      rw [ih]
      have hz : (validateGuestVisitLimit members now g pid checkIns
          existing []).1 = false := by rw [← hfst, hov]
      simp [hz]

/-- Component `processedGuests` is always the blank-filtered input, by definition. -/
theorem processGuests_processed (members : List Member) (now : Date)
    (guests : List Guest) (pid : Nat) (checkIns : List CheckIn)
    (existing : List String) (alerts : List AlertUpload) :
    (processGuests members now guests pid checkIns existing alerts).1.1 =
      guests.filter (fun g => jsTrim g.name != "") := rfl

/-- C9: processGuests keeps exactly the non-blank-named guests, in input
order (flagged guests included), and reports as over-limit exactly the
kept guests the over-limit check flags. -/
theorem processGuests_spec (members : List Member) (now : Date)
    (guests : List Guest) (pid : Nat) (checkIns : List CheckIn)
    (existing : List String) (alerts : List AlertUpload) :
    (processGuests members now guests pid checkIns existing alerts).1.1 =
      guests.filter (fun g => jsTrim g.name != "") ∧
    (processGuests members now guests pid checkIns existing alerts).1.2 =
      (guests.filter (fun g => jsTrim g.name != "")).filter
        (fun g =>
          (validateGuestVisitLimit members now g pid checkIns existing []).1) := by
  refine ⟨rfl, ?_⟩
  have h := processGuestsLoop_over members now pid checkIns existing
    (guests.filter (fun g => jsTrim g.name != "")) [] alerts
  simpa [processGuests] using h

/-- C5: the visit count for a known member equals the member's own
same-season case-insensitive historical matches plus the matching guest
entries in today's check-ins for that same profile id; check-ins of other
members do not contribute; an unknown profile id yields 0. -/
theorem guest_visit_count_spec (members : List Member) (now : Date)
    (guestName : String) (todaysCheckIns : List CheckIn) (profileId : Nat) :
    (getMemberById members profileId = none →
      getGuestVisitCount members now guestName todaysCheckIns profileId = 0) ∧
    (∀ m : Member, getMemberById members profileId = some m →
      getGuestVisitCount members now guestName todaysCheckIns profileId =
        m.guest_visits.countP (fun v =>
          getSeasonFromDate v.visit_date == getCurrentSeason now &&
          jsToLower v.guest_name == jsToLower guestName) +
        ((todaysCheckIns.filter (fun c => c.profile_id == profileId)).map
          (fun c => c.guests.countP
            (fun g => jsToLower g.name == jsToLower guestName))).sum) ∧
    (∀ other : CheckIn, other.profile_id ≠ profileId →
      getGuestVisitCount members now guestName (other :: todaysCheckIns)
          profileId =
        getGuestVisitCount members now guestName todaysCheckIns profileId) := by
  refine ⟨fun h => ?_, fun m hm => ?_, fun other hne => ?_⟩
  · simp only [getMemberById] at h
    simp [getGuestVisitCount, h]
  · simp only [getMemberById] at hm
    simp only [getGuestVisitCount, hm]
    rw [foldl_count_eq, foldl_nested_count_eq]
    omega
  · have hb : (other.profile_id == profileId) = false := by
      simpa using hne
    cases hfind : members.find? (fun m => m.profile_id == profileId) with
    | none => simp [getGuestVisitCount, hfind]
    | some m => simp [getGuestVisitCount, hfind, List.filter_cons, hb]

/-- Witness for `guest_visit_count_spec` at a concrete directory and
ledger: one in-season historical visit plus one matching ledger guest. -/
theorem guest_visit_count_spec_witness :
    getGuestVisitCount
        [{ profile_id := 1, name := some "Alice",
           guest_visits := [{ guest_name := "Sam", visit_date := ⟨2025, 7, 1⟩ },
                            { guest_name := "Sam", visit_date := ⟨2025, 1, 5⟩ }] }]
        ⟨2025, 7, 10⟩ "SAM"
        [{ profile_id := 1, check_in_date := "2025-07-10",
           check_in_time := "09:00:00", guests := [{ name := "sam" }] },
         { profile_id := 2, check_in_date := "2025-07-10",
           check_in_time := "09:10:00", guests := [{ name := "Sam" }] }] 1 =
      List.countP
        (fun (v : GuestVisit) =>
          getSeasonFromDate v.visit_date == getCurrentSeason ⟨2025, 7, 10⟩ &&
          jsToLower v.guest_name == jsToLower "SAM")
        [{ guest_name := "Sam", visit_date := ⟨2025, 7, 1⟩ },
         { guest_name := "Sam", visit_date := ⟨2025, 1, 5⟩ }] +
      List.sum
        (List.map
          (fun (c : CheckIn) => c.guests.countP
            (fun g => jsToLower g.name == jsToLower "SAM"))
          (List.filter (fun (c : CheckIn) => c.profile_id == 1)
            [{ profile_id := 1, check_in_date := "2025-07-10",
               check_in_time := "09:00:00", guests := [{ name := "sam" }] },
             { profile_id := 2, check_in_date := "2025-07-10",
               check_in_time := "09:10:00", guests := [{ name := "Sam" }] }])) :=
  (guest_visit_count_spec
    [{ profile_id := 1, name := some "Alice",
       guest_visits := [{ guest_name := "Sam", visit_date := ⟨2025, 7, 1⟩ },
                        { guest_name := "Sam", visit_date := ⟨2025, 1, 5⟩ }] }]
    ⟨2025, 7, 10⟩ "SAM"
    [{ profile_id := 1, check_in_date := "2025-07-10",
       check_in_time := "09:00:00", guests := [{ name := "sam" }] },
     { profile_id := 2, check_in_date := "2025-07-10",
       check_in_time := "09:10:00", guests := [{ name := "Sam" }] }] 1).2.1
    { profile_id := 1, name := some "Alice",
      guest_visits := [{ guest_name := "Sam", visit_date := ⟨2025, 7, 1⟩ },
                       { guest_name := "Sam", visit_date := ⟨2025, 1, 5⟩ }] }
    (by decide)

/-- Behaviour of `find?` after appending new guests to the first record of a given
profile id. -/
theorem updateFirst_find?_guests (pid : Nat) (newGs : List Guest)
    (l : List CheckIn) :
    (updateFirst (fun c => c.profile_id == pid)
        (fun c => { c with guests := c.guests ++ newGs }) l).find?
        (fun c => c.profile_id == pid) =
      (l.find? (fun c => c.profile_id == pid)).map
        (fun c => { c with guests := c.guests ++ newGs }) :=
  updateFirst_find? (fun c => c.profile_id == pid)
    (fun c => { c with guests := c.guests ++ newGs }) (fun _ => rfl) l

/-- C3: the hard 5-guest cap. A fresh check-in with more than 5 non-blank
guests, or an add-guests call pushing the member's total past 5, fails
with the cap message and mutates nothing; otherwise the operation
succeeds and the member's record ends up with exactly the prior count
plus the number of non-blank proposed guests. -/
theorem guest_cap_spec (members : List Member) (now : Date) (nowTime : String)
    (m : Member) (guests : List Guest) (st : LedgerState) :
    (st.checkIns.find? (fun c => c.profile_id == m.profile_id) = none →
      ((guests.filter (fun g => jsTrim g.name != "")).length > 5 →
        addCheckIn members now nowTime m guests st =
          ({ success := false,
             message := (validateGuestCount 0
                 (guests.filter (fun g => jsTrim g.name != "")).length).message.getD
               "Too many guests" },
           st)) ∧
      ((guests.filter (fun g => jsTrim g.name != "")).length ≤ 5 →
        (addCheckIn members now nowTime m guests st).1.success = true ∧
        ∃ c, (addCheckIn members now nowTime m guests st).2.checkIns.find?
              (fun c => c.profile_id == m.profile_id) = some c ∧
          c.guests.length =
            (guests.filter (fun g => jsTrim g.name != "")).length)) ∧
    (∀ c₀, st.checkIns.find? (fun c => c.profile_id == m.profile_id) = some c₀ →
      ((c₀.guests.length +
            (guests.filter (fun g => jsTrim g.name != "")).length > 5 →
        addGuestsToExistingCheckIn members now nowTime m.profile_id guests st =
          ({ success := false,
             message := (validateGuestCount c₀.guests.length
                 (guests.filter (fun g => jsTrim g.name != "")).length).message.getD
               "Too many guests" },
           st)) ∧
      (c₀.guests.length +
            (guests.filter (fun g => jsTrim g.name != "")).length ≤ 5 →
        (addGuestsToExistingCheckIn members now nowTime m.profile_id
            guests st).1.success = true ∧
        ∃ c, (addGuestsToExistingCheckIn members now nowTime m.profile_id
                guests st).2.checkIns.find?
              (fun c => c.profile_id == m.profile_id) = some c ∧
          c.guests.length = c₀.guests.length +
            (guests.filter (fun g => jsTrim g.name != "")).length))) := by
  refine ⟨fun hfind => ⟨fun hover => ?_, fun hunder => ?_⟩,
          fun c₀ hfind => ⟨fun hover => ?_, fun hunder => ?_⟩⟩
  · -- fresh check-in, over cap
    simp only [addCheckIn, handleGuestCheckIn, hfind]
    have hv : (validateGuestCount 0
        (guests.filter (fun g => jsTrim g.name != "")).length).valid = false := by
      unfold validateGuestCount
      rw [if_pos (by omega)]
    rw [if_pos hv]
  · -- fresh check-in, within cap
    simp only [addCheckIn, handleGuestCheckIn, hfind]
    have hv : ¬ (validateGuestCount 0
        (guests.filter (fun g => jsTrim g.name != "")).length).valid = false := by
      unfold validateGuestCount
      rw [if_neg (by omega)]
      simp
    rw [if_neg hv, if_pos (by trivial)]
    refine ⟨rfl, ?_⟩
    rw [find?_append_of_none hfind, List.find?_cons_of_pos _ (by simp)]
    exact ⟨_, rfl, by rw [processGuests_processed]⟩
  · -- add guests, over cap
    simp only [addGuestsToExistingCheckIn, handleGuestCheckIn, hfind]
    have hv : (validateGuestCount c₀.guests.length
        (guests.filter (fun g => jsTrim g.name != "")).length).valid = false := by
      unfold validateGuestCount
      rw [if_pos (by omega)]
    rw [if_pos hv]
  · -- add guests, within cap
    simp only [addGuestsToExistingCheckIn, handleGuestCheckIn, hfind]
    have hv : ¬ (validateGuestCount c₀.guests.length
        (guests.filter (fun g => jsTrim g.name != "")).length).valid = false := by
      unfold validateGuestCount
      rw [if_neg (by omega)]
      simp
    rw [if_neg hv, if_neg (by simp)]
    refine ⟨rfl, ?_⟩
    rw [updateFirst_find?_guests, hfind]
    exact ⟨_, rfl, by
      rw [List.length_append, processGuests_processed]⟩

/-- Witness for `guest_cap_spec`: six guests are rejected on a fresh
check-in; adding one guest to a record holding one succeeds. -/
theorem guest_cap_spec_witness :
    (addCheckIn [] ⟨2025, 7, 1⟩ "10:00:00"
        { profile_id := 1, name := some "Alice" }
        [{ name := "G1" }, { name := "G2" }, { name := "G3" },
         { name := "G4" }, { name := "G5" }, { name := "G6" }]
        { checkIns := [], alerts := [] } =
      ({ success := false,
         message := (validateGuestCount 0
             (([{ name := "G1" }, { name := "G2" }, { name := "G3" },
                { name := "G4" }, { name := "G5" }, { name := "G6" }]
                 : List Guest).filter
               (fun g => jsTrim g.name != "")).length).message.getD
           "Too many guests" },
       { checkIns := [], alerts := [] })) ∧
    (addGuestsToExistingCheckIn [] ⟨2025, 7, 1⟩ "10:00:00" 1
        [{ name := "G2" }]
        { checkIns := [{ profile_id := 1, check_in_date := "2025-07-01",
                         check_in_time := "09:00:00",
                         guests := [{ name := "G1" }] }],
          alerts := [] }).1.success = true := by
  constructor
  · exact ((guest_cap_spec [] ⟨2025, 7, 1⟩ "10:00:00"
      { profile_id := 1, name := some "Alice" }
      [{ name := "G1" }, { name := "G2" }, { name := "G3" },
       { name := "G4" }, { name := "G5" }, { name := "G6" }]
      { checkIns := [], alerts := [] }).1 rfl).1 (by decide)
  · exact (((guest_cap_spec [] ⟨2025, 7, 1⟩ "10:00:00"
      { profile_id := 1, name := some "Alice" }
      [{ name := "G2" }]
      { checkIns := [{ profile_id := 1, check_in_date := "2025-07-01",
                       check_in_time := "09:00:00",
                       guests := [{ name := "G1" }] }],
        alerts := [] }).2
      { profile_id := 1, check_in_date := "2025-07-01",
        check_in_time := "09:00:00", guests := [{ name := "G1" }] }
      rfl).2 (by decide)).1

/-- C2 counterexample: a guest with prior same-season count exactly 3
("Sam", three July visits, season S2025) is checked in a 4th time — the
check-in succeeds and the guest is appended, but NO GuestLimit alert is
recorded (the code flags only when the count exceeds 3, i.e. from the
5th visit on). -/
theorem fourth_visit_no_alert :
    getGuestVisitCount
        [{ profile_id := 1, name := some "Alice",
           guest_visits := [{ guest_name := "Sam", visit_date := ⟨2025, 7, 1⟩ },
                            { guest_name := "Sam", visit_date := ⟨2025, 7, 2⟩ },
                            { guest_name := "Sam", visit_date := ⟨2025, 7, 3⟩ }] }]
        ⟨2025, 7, 10⟩ "Sam" [] 1 = 3 ∧
    (addCheckIn
        [{ profile_id := 1, name := some "Alice",
           guest_visits := [{ guest_name := "Sam", visit_date := ⟨2025, 7, 1⟩ },
                            { guest_name := "Sam", visit_date := ⟨2025, 7, 2⟩ },
                            { guest_name := "Sam", visit_date := ⟨2025, 7, 3⟩ }] }]
        ⟨2025, 7, 10⟩ "10:00:00"
        { profile_id := 1, name := some "Alice",
          guest_visits := [{ guest_name := "Sam", visit_date := ⟨2025, 7, 1⟩ },
                           { guest_name := "Sam", visit_date := ⟨2025, 7, 2⟩ },
                           { guest_name := "Sam", visit_date := ⟨2025, 7, 3⟩ }] }
        [{ name := "Sam" }] { checkIns := [], alerts := [] }).1.success = true ∧
    (addCheckIn
        [{ profile_id := 1, name := some "Alice",
           guest_visits := [{ guest_name := "Sam", visit_date := ⟨2025, 7, 1⟩ },
                            { guest_name := "Sam", visit_date := ⟨2025, 7, 2⟩ },
                            { guest_name := "Sam", visit_date := ⟨2025, 7, 3⟩ }] }]
        ⟨2025, 7, 10⟩ "10:00:00"
        { profile_id := 1, name := some "Alice",
          guest_visits := [{ guest_name := "Sam", visit_date := ⟨2025, 7, 1⟩ },
                           { guest_name := "Sam", visit_date := ⟨2025, 7, 2⟩ },
                           { guest_name := "Sam", visit_date := ⟨2025, 7, 3⟩ }] }
        [{ name := "Sam" }] { checkIns := [], alerts := [] }).2.alerts = [] := by
  refine ⟨by decide, by decide, by decide⟩

/-- C2 (amended): a single-guest fresh check-in is never rejected on
visit-count grounds — it always succeeds and appends the guest; exactly
one GuestLimit alert (member id, guest name, message citing the visit
number) is recorded precisely when the prior same-season count exceeds 3
(i.e. from the 5th visit on), and none is recorded at a count of 3 or
below (so the 4th visit is silent). -/
theorem guest_visit_flagging (members : List Member) (now : Date)
    (nowTime : String) (m : Member) (g : Guest) (st : LedgerState)
    (hfind : st.checkIns.find? (fun c => c.profile_id == m.profile_id) = none)
    (hname : (jsTrim g.name == "") = false) :
    (addCheckIn members now nowTime m [g] st).1.success = true ∧
    (addCheckIn members now nowTime m [g] st).2.checkIns =
      st.checkIns ++
        [{ profile_id := m.profile_id, check_in_date := isoDate now,
           check_in_time := nowTime, guests := [g] }] ∧
    (getGuestVisitCount members now g.name st.checkIns m.profile_id > 3 →
      (addCheckIn members now nowTime m [g] st).2.alerts =
        st.alerts ++
          [{ profile_id := m.profile_id, guest_name := g.name,
             visit_date := isoDate now, season := getCurrentSeason now,
             type := "GuestLimit",
             alert_message := "This is visit #" ++
               toString (getGuestVisitCount members now g.name st.checkIns
                 m.profile_id + 1) ++ " (exceeds 3-visit limit)" }]) ∧
    (getGuestVisitCount members now g.name st.checkIns m.profile_id ≤ 3 →
      (addCheckIn members now nowTime m [g] st).2.alerts = st.alerts) := by
  have hvg : List.filter (fun x => jsTrim x.name != "") [g] = [g] := by
    simp [List.filter_cons, bne, hname]
  have halerts : (addCheckIn members now nowTime m [g] st).2.alerts =
      (validateGuestVisitLimit members now g m.profile_id st.checkIns []
        st.alerts).2 := by
    simp only [addCheckIn, handleGuestCheckIn, hfind, hvg]
    rw [if_neg (by simp [validateGuestCount]), if_pos (by trivial)]
    simp only [processGuests, hvg, processGuestsLoop]
  have hval : validateGuestVisitLimit members now g m.profile_id st.checkIns []
      st.alerts =
      (if getGuestVisitCount members now g.name st.checkIns m.profile_id > 3 then
        (true, st.alerts ++
          [{ profile_id := m.profile_id, guest_name := g.name,
             visit_date := isoDate now, season := getCurrentSeason now,
             type := "GuestLimit",
             alert_message := "This is visit #" ++
               toString (getGuestVisitCount members now g.name st.checkIns
                 m.profile_id + 1) ++ " (exceeds 3-visit limit)" }])
      else (false, st.alerts)) := by
    simp [validateGuestVisitLimit, hname, createAlert]
  refine ⟨?_, ?_, fun hover => ?_, fun hunder => ?_⟩
  · simp only [addCheckIn, handleGuestCheckIn, hfind, hvg]
    rw [if_neg (by simp [validateGuestCount]), if_pos (by trivial)]
  · simp only [addCheckIn, handleGuestCheckIn, hfind, hvg]
    rw [if_neg (by simp [validateGuestCount]), if_pos (by trivial)]
    rw [processGuests_processed, hvg]
  · rw [halerts, hval, if_pos hover]
  · rw [halerts, hval, if_neg (by omega)]

/-- Witness for `guest_visit_flagging`: with four prior in-season "Sam"
visits the 5th check-in succeeds and records the one GuestLimit alert. -/
theorem guest_visit_flagging_witness :
    (addCheckIn
        [{ profile_id := 1, name := some "Alice",
           guest_visits := [{ guest_name := "Sam", visit_date := ⟨2025, 7, 1⟩ },
                            { guest_name := "Sam", visit_date := ⟨2025, 7, 2⟩ },
                            { guest_name := "Sam", visit_date := ⟨2025, 7, 3⟩ },
                            { guest_name := "Sam", visit_date := ⟨2025, 7, 4⟩ }] }]
        ⟨2025, 7, 10⟩ "10:00:00"
        { profile_id := 1, name := some "Alice",
          guest_visits := [{ guest_name := "Sam", visit_date := ⟨2025, 7, 1⟩ },
                           { guest_name := "Sam", visit_date := ⟨2025, 7, 2⟩ },
                           { guest_name := "Sam", visit_date := ⟨2025, 7, 3⟩ },
                           { guest_name := "Sam", visit_date := ⟨2025, 7, 4⟩ }] }
        [{ name := "Sam" }] { checkIns := [], alerts := [] }).1.success = true ∧
    (addCheckIn
        [{ profile_id := 1, name := some "Alice",
           guest_visits := [{ guest_name := "Sam", visit_date := ⟨2025, 7, 1⟩ },
                            { guest_name := "Sam", visit_date := ⟨2025, 7, 2⟩ },
                            { guest_name := "Sam", visit_date := ⟨2025, 7, 3⟩ },
                            { guest_name := "Sam", visit_date := ⟨2025, 7, 4⟩ }] }]
        ⟨2025, 7, 10⟩ "10:00:00"
        { profile_id := 1, name := some "Alice",
          guest_visits := [{ guest_name := "Sam", visit_date := ⟨2025, 7, 1⟩ },
                           { guest_name := "Sam", visit_date := ⟨2025, 7, 2⟩ },
                           { guest_name := "Sam", visit_date := ⟨2025, 7, 3⟩ },
                           { guest_name := "Sam", visit_date := ⟨2025, 7, 4⟩ }] }
        [{ name := "Sam" }] { checkIns := [], alerts := [] }).2.alerts =
      [] ++
        [{ profile_id := 1, guest_name := "Sam",
           visit_date := isoDate ⟨2025, 7, 10⟩,
           season := getCurrentSeason ⟨2025, 7, 10⟩,
           type := "GuestLimit",
           alert_message := "This is visit #" ++
             toString (getGuestVisitCount
               [{ profile_id := 1, name := some "Alice",
                  guest_visits := [{ guest_name := "Sam", visit_date := ⟨2025, 7, 1⟩ },
                                   { guest_name := "Sam", visit_date := ⟨2025, 7, 2⟩ },
                                   { guest_name := "Sam", visit_date := ⟨2025, 7, 3⟩ },
                                   { guest_name := "Sam", visit_date := ⟨2025, 7, 4⟩ }] }]
               ⟨2025, 7, 10⟩ "Sam" [] 1 + 1) ++ " (exceeds 3-visit limit)" }] := by
  have h := guest_visit_flagging
    [{ profile_id := 1, name := some "Alice",
       guest_visits := [{ guest_name := "Sam", visit_date := ⟨2025, 7, 1⟩ },
                        { guest_name := "Sam", visit_date := ⟨2025, 7, 2⟩ },
                        { guest_name := "Sam", visit_date := ⟨2025, 7, 3⟩ },
                        { guest_name := "Sam", visit_date := ⟨2025, 7, 4⟩ }] }]
    ⟨2025, 7, 10⟩ "10:00:00"
    { profile_id := 1, name := some "Alice",
      guest_visits := [{ guest_name := "Sam", visit_date := ⟨2025, 7, 1⟩ },
                       { guest_name := "Sam", visit_date := ⟨2025, 7, 2⟩ },
                       { guest_name := "Sam", visit_date := ⟨2025, 7, 3⟩ },
                       { guest_name := "Sam", visit_date := ⟨2025, 7, 4⟩ }] }
    { name := "Sam" } { checkIns := [], alerts := [] } rfl (by decide)
  exact ⟨h.1, h.2.2.1 (by decide)⟩

/-- C8 counterexample: guest name "Sam " (trailing space) matches the
recorded name "sam" after trimming and lowercasing, yet the over-limit
check does NOT return false immediately — the duplicate test compares the
lowercased name untrimmed, so the check proceeds to the visit count,
returns true, and records an alert. -/
theorem duplicate_name_not_trimmed :
    (jsToLower (jsTrim "Sam ") == "sam") = true ∧
    (validateGuestVisitLimit
        [{ profile_id := 1, name := some "Alice",
           guest_visits := [{ guest_name := "Sam ", visit_date := ⟨2025, 7, 1⟩ },
                            { guest_name := "Sam ", visit_date := ⟨2025, 7, 2⟩ },
                            { guest_name := "Sam ", visit_date := ⟨2025, 7, 3⟩ },
                            { guest_name := "Sam ", visit_date := ⟨2025, 7, 4⟩ }] }]
        ⟨2025, 7, 10⟩ { name := "Sam " } 1 [] ["sam"] []).1 = true ∧
    (validateGuestVisitLimit
        [{ profile_id := 1, name := some "Alice",
           guest_visits := [{ guest_name := "Sam ", visit_date := ⟨2025, 7, 1⟩ },
                            { guest_name := "Sam ", visit_date := ⟨2025, 7, 2⟩ },
                            { guest_name := "Sam ", visit_date := ⟨2025, 7, 3⟩ },
                            { guest_name := "Sam ", visit_date := ⟨2025, 7, 4⟩ }] }]
        ⟨2025, 7, 10⟩ { name := "Sam " } 1 [] ["sam"] []).2.length = 1 := by
  refine ⟨by decide, by decide, by decide⟩

/-- C8 (amended): the over-limit check returns false immediately —
recording no Alert — when the guest's name is blank after trimming, or
when the lowercased (but NOT trimmed) name equals one of the supplied
already-recorded names; a name that matches a recorded name only after
trimming is not skipped. -/
theorem visit_limit_early_return (members : List Member) (now : Date)
    (g : Guest) (pid : Nat) (checkIns : List CheckIn)
    (existing : List String) (alerts : List AlertUpload) :
    (jsTrim g.name = "" →
      validateGuestVisitLimit members now g pid checkIns existing alerts =
        (false, alerts)) ∧
    (jsToLower g.name ∈ existing →
      validateGuestVisitLimit members now g pid checkIns existing alerts =
        (false, alerts)) := by
  constructor
  · intro h
    simp [validateGuestVisitLimit, h]
  · intro h
    by_cases h1 : (jsTrim g.name == "") = true
    · simp [validateGuestVisitLimit, h1]
    · simp [validateGuestVisitLimit, h1, h]

/-- Witness for `visit_limit_early_return`: a lowercase duplicate of an
already-recorded name is skipped without an alert. -/
theorem visit_limit_early_return_witness :
    validateGuestVisitLimit [] ⟨2025, 7, 10⟩ { name := "SAM" } 1 [] ["sam"]
        [] = (false, []) :=
  (visit_limit_early_return [] ⟨2025, 7, 10⟩ { name := "SAM" } 1 [] ["sam"]
    []).2 (by decide)

/-- C7 counterexample: ingesting a successful download does NOT reset the
Alert Log — a pre-existing alert survives the download (only the check-in
ledger is reset). -/
theorem download_keeps_alerts :
    (handleDownloadDataSuccess
        { status := 200, message := "ok",
          data := { metadata := { timestamp := "t", date := "2025-07-10",
                                  member_count := 0, total_guest_visits := 0 },
                    members := [] },
          api_version := "1", timestamp := "t" }
        "2025-07-10T08:00:00.000Z"
        { memberData := none, lastDownloadDate := none, checkIns := [],
          alerts := [{ profile_id := 0, guest_name := "",
                       visit_date := "2025-07-09", season := "S2025",
                       type := "ManualGateAlert",
                       alert_message := "note" }] }).alerts =
      [{ profile_id := 0, guest_name := "", visit_date := "2025-07-09",
         season := "S2025", type := "ManualGateAlert",
         alert_message := "note" }] := by decide

/-- C7 (amended): ingesting a successful download replaces the stored
directory wholesale, stamps the last-downloaded timestamp, and resets the
Ledger to empty; the Alert Log is left unchanged (it is cleared only by a
successful upload). -/
theorem download_ingest_spec (apiResponse : ApiResponse)
    (nowInstant : String) (s : Store) :
    handleDownloadDataSuccess apiResponse nowInstant s =
      { memberData := some apiResponse.data,
        lastDownloadDate := some nowInstant,
        checkIns := [],
        alerts := s.alerts } := rfl
